import Mathlib

/-!
Verification of the ProxyBase MCP server (`src/main.rs`) against its
natural-language specification.

The Rust program is a stdin/stdout JSON-RPC 2.0 bridge: it reads one request
per line, dispatches on the method name, executes one of seven "tools" by
issuing HTTP calls to a REST backend, and writes one response per line.

Shallow embedding conventions:
* `serde_json::Value` is modelled by the inductive `Json`.  JSON numbers are
  modelled as integers (`Int`); no claim involves non-integer numeric
  payloads.  Objects are association lists; `serde_json`'s map lookup is
  modelled by first-match lookup, and the parser collapses duplicate keys
  with last-wins semantics as `serde_json` does.
* The HTTP layer is modelled by an oracle `Backend : BackendOp → Except
  String Json` giving, for each backend operation, the *classified* outcome
  of `ProxyBaseClient`'s corresponding method (`Ok(body)` for a 2xx response
  with a JSON body, `Err(msg)` for transport/parse/status failures, exactly
  as classified in `src/main.rs`).  Functions that perform backend calls
  additionally return the list of operations issued, in order, so that
  claims about *which* requests are sent are statable.
* `Cargo.toml` is not part of the sources; the package version string used in
  the `initialize` response is an arbitrary constant (no claim depends on it).
-/

/-- `serde_json::Value`, with numbers restricted to integers. -/
inductive Json where
  | null
  | bool (b : Bool)
  | num (n : Int)
  | str (s : String)
  | arr (xs : List Json)
  | obj (fields : List (String × Json))

/-- First-match lookup in an object's field list. -/
def lookupField : List (String × Json) → String → Option Json
  | [], _ => none
  | (k, v) :: rest, key => if k = key then some v else lookupField rest key

/-- `Value::get(key)`: field lookup on objects, `None` on any other variant. -/
def Json.get (j : Json) (key : String) : Option Json :=
  match j with
  | .obj fields => lookupField fields key
  | _ => none

/-- `Value::as_str()`. -/
def Json.asStr : Json → Option String
  | .str s => some s
  | _ => none

/-- `Value::as_array()`. -/
def Json.asArray : Json → Option (List Json)
  | .arr xs => some xs
  | _ => none

/-- Whether the value is a JSON object. -/
def Json.isObj : Json → Bool
  | .obj _ => true
  | _ => false

/-- ASCII lowercasing of one character (model of `char::to_lowercase` on the
ASCII range; currency codes are ASCII). -/
def lowerChar (c : Char) : Char :=
  if 65 ≤ c.toNat ∧ c.toNat ≤ 90 then Char.ofNat (c.toNat + 32) else c

/-- Model of Rust `str::to_lowercase`. -/
def to_lowercase (s : String) : String := String.mk (s.data.map lowerChar)

/-- JSON string escaping as `serde_json` performs it when serializing. -/
def escapeChar (c : Char) : String :=
  if c = '"' then "\\\""
  else if c = '\\' then "\\\\"
  else if c = '\n' then "\\n"
  else if c = '\r' then "\\r"
  else if c = '\t' then "\\t"
  else if c.toNat = 8 then "\\b"
  else if c.toNat = 12 then "\\f"
  else if c.toNat < 32 then
    "\\u00" ++ String.mk [(Nat.digitChar (c.toNat / 16)), (Nat.digitChar (c.toNat % 16))]
  else String.singleton c

/-- Escape a whole string for JSON output. -/
def escapeString (s : String) : String :=
  s.data.foldl (fun acc c => acc ++ escapeChar c) ""

/-- Spaces used for pretty-printer indentation. -/
def indentSpaces (n : Nat) : String := String.mk (List.replicate n ' ')

/-- Core of the pretty printer, recursing over the nested `Json` tree. -/
def prettyGo (ind : Nat) : Json → String
  | .null => "null"
  | .bool true => "true"
  | .bool false => "false"
  | .num n => toString n
  | .str s => "\"" ++ escapeString s ++ "\""
  | .arr [] => "[]"
  | .arr (x :: xs) =>
    "[\n" ++
      String.intercalate ",\n"
        ((x :: xs).attach.map (fun e =>
          indentSpaces (ind + 2) ++ prettyGo (ind + 2) e.1)) ++
      "\n" ++ indentSpaces ind ++ "]"
  | .obj [] => "\x7b\x7d"
  | .obj (f :: fs) =>
    "\x7b\n" ++
      String.intercalate ",\n"
        ((f :: fs).attach.map (fun kv =>
          indentSpaces (ind + 2) ++ "\"" ++ escapeString kv.1.1 ++ "\": " ++
            prettyGo (ind + 2) kv.1.2)) ++
      "\n" ++ indentSpaces ind ++ "\x7d"
  termination_by j => sizeOf j
  decreasing_by
  · have h := List.sizeOf_lt_of_mem e.2
    simp only [Json.arr.sizeOf_spec]
    omega
  · have h := List.sizeOf_lt_of_mem kv.2
    have h2 : sizeOf kv.1.2 < sizeOf kv.1 := by
      obtain ⟨⟨a, b⟩, _⟩ := kv
      simp only [Prod.mk.sizeOf_spec]
      omega
    simp only [Json.obj.sizeOf_spec]
    omega

/-- Model of `serde_json::to_string_pretty` (2-space indentation). -/
def to_string_pretty (j : Json) : String := prettyGo 0 j

/-- The parsed request envelope (`struct JsonRpcRequest`). -/
structure JsonRpcRequest where
  jsonrpc : String
  id : Option Json
  method : String
  params : Option Json

/-- The error payload (`struct JsonRpcError`). -/
structure JsonRpcError where
  code : Int
  message : String
  data : Option Json

/-- The response envelope (`struct JsonRpcResponse`). -/
structure JsonRpcResponse where
  jsonrpc : String
  id : Json
  result : Option Json
  error : Option JsonRpcError

/-- `JsonRpcResponse::success`. -/
def JsonRpcResponse.success (id : Json) (result : Json) : JsonRpcResponse :=
  { jsonrpc := "2.0", id := id, result := some result, error := none }

/-- `JsonRpcResponse::error`. -/
def JsonRpcResponse.err (id : Json) (code : Int) (message : String) : JsonRpcResponse :=
  { jsonrpc := "2.0", id := id, result := none,
    error := some { code := code, message := message, data := none } }

/-- Serde serialization of `JsonRpcError` to a JSON tree: `data` is skipped
when `None` (`skip_serializing_if = "Option::is_none"`). -/
def error_to_json (e : JsonRpcError) : Json :=
  Json.obj ([("code", Json.num e.code), ("message", Json.str e.message)] ++
    (match e.data with | some d => [("data", d)] | none => []))

/-- Serde serialization of `JsonRpcResponse` to a JSON tree (the value
`serde_json::to_value` / `to_writer` serializes): `result` and `error` are
each skipped entirely when `None`. -/
def response_to_json (r : JsonRpcResponse) : Json :=
  Json.obj ([("jsonrpc", Json.str r.jsonrpc), ("id", r.id)] ++
    (match r.result with | some v => [("result", v)] | none => []) ++
    (match r.error with | some e => [("error", error_to_json e)] | none => []))

/-- Shorthand for a schema property entry `{ "type": "string", "description": d }`. -/
def strProp (d : String) : Json :=
  Json.obj [("type", Json.str "string"), ("description", Json.str d)]

/-- An `inputSchema` object with the given properties and required list. -/
def inputSchemaOf (props : List (String × Json)) (req : List String) : Json :=
  Json.obj [("type", Json.str "object"),
            ("properties", Json.obj props),
            ("required", Json.arr (req.map Json.str))]

/-- The static MCP tool catalog (`fn get_tools`), transcribed verbatim. -/
def get_tools : Json :=
  Json.arr [
    Json.obj [
      ("name", Json.str "register_agent"),
      ("description", Json.str "Register a new AI agent with ProxyBase and receive an API key. This is the first step — you need an API key to use all other tools. The API key should be saved and reused for subsequent requests."),
      ("inputSchema", inputSchemaOf [] [])],
    Json.obj [
      ("name", Json.str "list_packages"),
      ("description", Json.str "List all available proxy bandwidth packages with pricing. Each package includes a bandwidth allocation (in bytes), price (in USD), proxy type, and target country."),
      ("inputSchema", inputSchemaOf
        [("api_key", strProp "Your ProxyBase API key (starts with pk_)")]
        ["api_key"])],
    Json.obj [
      ("name", Json.str "list_currencies"),
      ("description", Json.str "List all available payment currencies (cryptocurrencies) that can be used for the pay_currency field when creating an order or topping up. These are the coins enabled on the payment provider's merchant account. You MUST call this before creating an order to know which pay_currency values are valid."),
      ("inputSchema", inputSchemaOf
        [("api_key", strProp "Your ProxyBase API key (starts with pk_)")]
        ["api_key"])],
    Json.obj [
      ("name", Json.str "create_order"),
      ("description", Json.str "Create a new proxy order. This generates a cryptocurrency payment invoice. Once payment is confirmed via the blockchain, your SOCKS5 proxy credentials will be provisioned automatically. Poll check_order_status to monitor payment and get credentials."),
      ("inputSchema", inputSchemaOf
        [("api_key", strProp "Your ProxyBase API key (starts with pk_)"),
         ("package_id", strProp "The package ID to purchase (e.g., 'us_residential_1gb')"),
         ("pay_currency", strProp "Cryptocurrency to pay with. Use list_currencies to get valid values. Defaults to 'usdttrc20'."),
         ("callback_url", strProp "Optional webhook URL to receive status notifications (payment confirmed, bandwidth 80%/95%, exhausted)")]
        ["api_key", "package_id"])],
    Json.obj [
      ("name", Json.str "check_order_status"),
      ("description", Json.str "Check the current status of an order. Returns payment status, bandwidth usage, and SOCKS5 proxy credentials (host:port:username:password) once the proxy is active. Statuses: payment_pending → confirming → paid → proxy_active → bandwidth_exhausted."),
      ("inputSchema", inputSchemaOf
        [("api_key", strProp "Your ProxyBase API key (starts with pk_)"),
         ("order_id", strProp "The order ID returned from create_order")]
        ["api_key", "order_id"])],
    Json.obj [
      ("name", Json.str "topup_order"),
      ("description", Json.str "Add more bandwidth to an existing order. Creates a new payment invoice for the additional bandwidth. The proxy credentials remain the same — only the bandwidth allowance increases. Can also reactivate an exhausted proxy."),
      ("inputSchema", inputSchemaOf
        [("api_key", strProp "Your ProxyBase API key (starts with pk_)"),
         ("order_id", strProp "The order ID to top up"),
         ("package_id", strProp "The bandwidth package to add (e.g., 'us_residential_1gb')"),
         ("pay_currency", strProp "Cryptocurrency to pay with. Use list_currencies to get valid values. Defaults to 'usdttrc20'.")]
        ["api_key", "order_id", "package_id"])],
    Json.obj [
      ("name", Json.str "rotate_proxy"),
      ("description", Json.str "Rotate the proxy to get a fresh IP address. This calls the upstream partner's reset endpoint to invalidate the current session and assign a new IP. Only works on orders with proxy_active status. After rotation, your next SOCKS5 connection will use a new IP."),
      ("inputSchema", inputSchemaOf
        [("api_key", strProp "Your ProxyBase API key (starts with pk_)"),
         ("order_id", strProp "The order ID whose proxy should be rotated")]
        ["api_key", "order_id"])]]

/-- One outbound backend operation of `ProxyBaseClient`, with the data the
client method receives (the HTTP method/path/header/body are determined by
the operation, see §6 of the spec). -/
inductive BackendOp where
  | registerAgent
  | listPackages (api_key : String)
  | listCurrencies (api_key : String)
  | createOrder (api_key package_id : String) (pay_currency callback_url : Option String)
  | checkOrderStatus (api_key order_id : String)
  | topupOrder (api_key order_id package_id : String) (pay_currency : Option String)
  | rotateProxy (api_key order_id : String)
  deriving DecidableEq

/-- The backend oracle: for each operation, the classified outcome of the
corresponding `ProxyBaseClient` method (`Ok(2xx JSON body)` or the error
string built from a transport, parse, or non-2xx failure). -/
def Backend : Type := BackendOp → Except String Json

/-- `args.get(key).and_then(|v| v.as_str())`: the string-typed view of one
argument. -/
def str_arg_view (args : Json) (key : String) : Option String :=
  (args.get key).bind Json.asStr

/-- `fn get_str_arg`: fetch a required string argument or fail naming it. -/
def get_str_arg (args : Json) (key : String) : Except String String :=
  match str_arg_view args key with
  | some s => .ok s
  | none => .error ("Missing required argument: " ++ key)

/-- `fn execute_tool`, paired with the trace of backend operations issued, in
order.  Each `client.…(…)` call in the source corresponds to one oracle query
here and one entry in the trace. -/
def execute_tool (backend : Backend) (tool_name : String) (args : Json) :
    Except String Json × List BackendOp :=
  match tool_name with
  | "register_agent" => (backend .registerAgent, [.registerAgent])
  | "list_packages" =>
    match get_str_arg args "api_key" with
    | .error e => (.error e, [])
    | .ok api_key => (backend (.listPackages api_key), [.listPackages api_key])
  | "list_currencies" =>
    match get_str_arg args "api_key" with
    | .error e => (.error e, [])
    | .ok api_key => (backend (.listCurrencies api_key), [.listCurrencies api_key])
  | "create_order" =>
    match get_str_arg args "api_key" with
    | .error e => (.error e, [])
    | .ok api_key =>
      match get_str_arg args "package_id" with
      | .error e => (.error e, [])
      | .ok package_id =>
        match str_arg_view args "pay_currency" with
        | some currency =>
          match backend (.listCurrencies api_key) with
          | .error e => (.error e, [.listCurrencies api_key])
          | .ok currencies_val =>
            match (currencies_val.get "currencies").bind Json.asArray with
            | some currencies_arr =>
              let valid_currencies := currencies_arr.filterMap Json.asStr
              if valid_currencies.contains (to_lowercase currency) then
                let callback_url := str_arg_view args "callback_url"
                (backend (.createOrder api_key package_id (some currency) callback_url),
                 [.listCurrencies api_key,
                  .createOrder api_key package_id (some currency) callback_url])
              else
                (.error ("Invalid pay_currency: '" ++ currency ++ "'. Supported currencies: "
                    ++ String.intercalate ", " valid_currencies),
                 [.listCurrencies api_key])
            | none =>
              let callback_url := str_arg_view args "callback_url"
              (backend (.createOrder api_key package_id (some currency) callback_url),
               [.listCurrencies api_key,
                .createOrder api_key package_id (some currency) callback_url])
        | none =>
          let callback_url := str_arg_view args "callback_url"
          (backend (.createOrder api_key package_id none callback_url),
           [.createOrder api_key package_id none callback_url])
  | "check_order_status" =>
    match get_str_arg args "api_key" with
    | .error e => (.error e, [])
    | .ok api_key =>
      match get_str_arg args "order_id" with
      | .error e => (.error e, [])
      | .ok order_id =>
        (backend (.checkOrderStatus api_key order_id), [.checkOrderStatus api_key order_id])
  | "topup_order" =>
    match get_str_arg args "api_key" with
    | .error e => (.error e, [])
    | .ok api_key =>
      match get_str_arg args "order_id" with
      | .error e => (.error e, [])
      | .ok order_id =>
        match get_str_arg args "package_id" with
        | .error e => (.error e, [])
        | .ok package_id =>
          match str_arg_view args "pay_currency" with
          | some currency =>
            match backend (.listCurrencies api_key) with
            | .error e => (.error e, [.listCurrencies api_key])
            | .ok currencies_val =>
              match (currencies_val.get "currencies").bind Json.asArray with
              | some currencies_arr =>
                let valid_currencies := currencies_arr.filterMap Json.asStr
                if valid_currencies.contains (to_lowercase currency) then
                  (backend (.topupOrder api_key order_id package_id (some currency)),
                   [.listCurrencies api_key,
                    .topupOrder api_key order_id package_id (some currency)])
                else
                  (.error ("Invalid pay_currency: '" ++ currency ++ "'. Supported currencies: "
                      ++ String.intercalate ", " valid_currencies),
                   [.listCurrencies api_key])
              | none =>
                (backend (.topupOrder api_key order_id package_id (some currency)),
                 [.listCurrencies api_key,
                  .topupOrder api_key order_id package_id (some currency)])
          | none =>
            (backend (.topupOrder api_key order_id package_id none),
             [.topupOrder api_key order_id package_id none])
  | "rotate_proxy" =>
    match get_str_arg args "api_key" with
    | .error e => (.error e, [])
    | .ok api_key =>
      match get_str_arg args "order_id" with
      | .error e => (.error e, [])
      | .ok order_id =>
        (backend (.rotateProxy api_key order_id), [.rotateProxy api_key order_id])
  | _ => (.error ("Unknown tool: " ++ tool_name), [])

/-- The `CARGO_PKG_VERSION` constant baked into the `initialize` response.
The package manifest is not among the sources; the value is arbitrary here
and no claim depends on it. -/
def cargo_pkg_version : String := "0.1.0"

/-- The static `initialize` result object. -/
def initialize_result : Json :=
  Json.obj [
    ("protocolVersion", Json.str "2024-11-05"),
    ("capabilities", Json.obj [("tools", Json.obj [])]),
    ("serverInfo", Json.obj [
      ("name", Json.str "proxybase-mcp"),
      ("version", Json.str cargo_pkg_version)])]

/-- `params.and_then(|p| p.get("name")).and_then(|n| n.as_str()).unwrap_or("")`. -/
def extract_name (params : Option Json) : String :=
  ((params.bind (fun p => p.get "name")).bind Json.asStr).getD ""

/-- `params.and_then(|p| p.get("arguments")).cloned().unwrap_or(json!(\x7b\x7d))`. -/
def extract_args (params : Option Json) : Json :=
  (params.bind (fun p => p.get "arguments")).getD (Json.obj [])

/-- A `{"type": "text", "text": s}` content block. -/
def text_block (s : String) : Json :=
  Json.obj [("type", Json.str "text"), ("text", Json.str s)]

/-- `fn handle_request`, paired with the trace of backend operations issued. -/
def handle_request (backend : Backend) (req : JsonRpcRequest) :
    JsonRpcResponse × List BackendOp :=
  let id := req.id.getD Json.null
  match req.method with
  | "initialize" => (JsonRpcResponse.success id initialize_result, [])
  | "tools/list" =>
    (JsonRpcResponse.success id (Json.obj [("tools", get_tools)]), [])
  | "tools/call" =>
    let tool_name := extract_name req.params
    let args := extract_args req.params
    match execute_tool backend tool_name args with
    | (.ok content, ops) =>
      (JsonRpcResponse.success id
        (Json.obj [("content", Json.arr [text_block (to_string_pretty content)])]), ops)
    | (.error err_msg, ops) =>
      (JsonRpcResponse.success id
        (Json.obj [("content", Json.arr [text_block err_msg]),
                   ("isError", Json.bool true)]), ops)
  | "notifications/initialized" => (JsonRpcResponse.success id Json.null, [])
  | "notifications/cancelled" => (JsonRpcResponse.success id Json.null, [])
  | _ =>
    (JsonRpcResponse.err id (-32601) ("Method not found: " ++ req.method), [])

/-- JSON whitespace (space, tab, newline, carriage return). -/
def isJsonWs (c : Char) : Bool :=
  c = ' ' || c = '\t' || c = '\n' || c = '\r'

/-- Drop leading JSON whitespace. -/
def skipWs (cs : List Char) : List Char := cs.dropWhile isJsonWs

/-- Hex digit value, if any. -/
def hexVal (c : Char) : Option Nat :=
  if 48 ≤ c.toNat ∧ c.toNat ≤ 57 then some (c.toNat - 48)
  else if 97 ≤ c.toNat ∧ c.toNat ≤ 102 then some (c.toNat - 87)
  else if 65 ≤ c.toNat ∧ c.toNat ≤ 70 then some (c.toNat - 55)
  else none

/-- Parse the remainder of a JSON string literal (after the opening quote):
content characters and the input following the closing quote. -/
def parseStringRest : List Char → Except String (List Char × List Char)
  | [] => .error "unexpected end of input in string"
  | '"' :: rest => .ok ([], rest)
  | '\\' :: esc =>
    match esc with
    | 'u' :: h1 :: h2 :: h3 :: h4 :: rest =>
      match hexVal h1, hexVal h2, hexVal h3, hexVal h4 with
      | some a, some b, some c, some d =>
        match parseStringRest rest with
        | .ok (content, rem) =>
          .ok (Char.ofNat (((a * 16 + b) * 16 + c) * 16 + d) :: content, rem)
        | .error e => .error e
      | _, _, _, _ => .error "invalid unicode escape"
    | e :: rest =>
      let c? : Option Char :=
        if e = '"' then some '"'
        else if e = '\\' then some '\\'
        else if e = '/' then some '/'
        else if e = 'b' then some (Char.ofNat 8)
        else if e = 'f' then some (Char.ofNat 12)
        else if e = 'n' then some '\n'
        else if e = 'r' then some '\r'
        else if e = 't' then some '\t'
        else none
      match c? with
      | some c =>
        match parseStringRest rest with
        | .ok (content, rem) => .ok (c :: content, rem)
        | .error e2 => .error e2
      | none => .error "invalid escape"
    | [] => .error "unexpected end of input in string"
  | c :: rest =>
    if c.toNat < 32 then .error "control character in string"
    else
      match parseStringRest rest with
      | .ok (content, rem) => .ok (c :: content, rem)
      | .error e => .error e

/-- Longest prefix of decimal digits, and the rest. -/
def spanDigits : List Char → (List Char × List Char)
  | [] => ([], [])
  | c :: rest =>
    if 48 ≤ c.toNat ∧ c.toNat ≤ 57 then
      let (ds, rem) := spanDigits rest
      (c :: ds, rem)
    else ([], c :: rest)

/-- Value of a digit string. -/
def digitsToNat (ds : List Char) : Nat :=
  ds.foldl (fun acc c => acc * 10 + (c.toNat - 48)) 0

/-- Replace the value at a key, or append the pair: models `serde_json`'s
map insertion (later duplicate keys overwrite earlier ones). -/
def updateField : List (String × Json) → String → Json → List (String × Json)
  | [], k, v => [(k, v)]
  | (k0, v0) :: rest, k, v =>
    if k0 = k then (k0, v) :: rest else (k0, v0) :: updateField rest k v

/-- Collapse duplicate keys, last occurrence winning. -/
def dedupeFields (fields : List (String × Json)) : List (String × Json) :=
  fields.foldl (fun acc kv => updateField acc kv.1 kv.2) []

/-- What one step of the recursive-descent JSON parser returns. -/
inductive POut where
  | v (j : Json)
  | vs (l : List Json)
  | kvs (l : List (String × Json))

/-- The parser's mode: a value, the inside of an array (first item or `]`),
the continuation of an array (`,` or `]`), and the same for objects. -/
inductive PMode where
  | val
  | arrFirst
  | arrNext
  | objFirst
  | objNext

/-- Recursive-descent JSON parsing (model of `serde_json`'s grammar with
numbers restricted to integers).  The fuel argument makes the recursion
structural; `parse_json` instantiates it with a bound that the call depth,
which grows with the input length, never reaches. -/
def parseStep : Nat → PMode → List Char → Except String (POut × List Char)
  | 0, _, _ => .error "recursion limit exceeded"
  | _ + 1, .val, [] => .error "unexpected end of input"
  | fuel + 1, .val, c :: cs =>
    if c = 'n' then
      match cs with
      | 'u' :: 'l' :: 'l' :: rest => .ok (.v Json.null, rest)
      | _ => .error "expected value"
    else if c = 't' then
      match cs with
      | 'r' :: 'u' :: 'e' :: rest => .ok (.v (Json.bool true), rest)
      | _ => .error "expected value"
    else if c = 'f' then
      match cs with
      | 'a' :: 'l' :: 's' :: 'e' :: rest => .ok (.v (Json.bool false), rest)
      | _ => .error "expected value"
    else if c = '"' then
      match parseStringRest cs with
      | .ok (content, rem) => .ok (.v (Json.str (String.mk content)), rem)
      | .error e => .error e
    else if c = '-' then
      match spanDigits cs with
      | ([], _) => .error "expected digits"
      | (ds, rem) => .ok (.v (Json.num (-(digitsToNat ds : Int))), rem)
    else if 48 ≤ c.toNat ∧ c.toNat ≤ 57 then
      let (ds, rem) := spanDigits (c :: cs)
      .ok (.v (Json.num (digitsToNat ds : Int)), rem)
    else if c = '[' then
      match parseStep fuel .arrFirst (skipWs cs) with
      | .ok (.vs l, rem) => .ok (.v (Json.arr l), rem)
      | .ok _ => .error "internal"
      | .error e => .error e
    else if c = '\x7b' then
      match parseStep fuel .objFirst (skipWs cs) with
      | .ok (.kvs l, rem) => .ok (.v (Json.obj (dedupeFields l)), rem)
      | .ok _ => .error "internal"
      | .error e => .error e
    else .error "expected value"
  | _ + 1, .arrFirst, [] => .error "unexpected end of input"
  | fuel + 1, .arrFirst, c :: cs =>
    if c = ']' then .ok (.vs [], cs)
    else
      match parseStep fuel .val (c :: cs) with
      | .ok (.v j, rem) =>
        (match parseStep fuel .arrNext (skipWs rem) with
         | .ok (.vs l, rem2) => .ok (.vs (j :: l), rem2)
         | .ok _ => .error "internal"
         | .error e => .error e)
      | .ok _ => .error "internal"
      | .error e => .error e
  | _ + 1, .arrNext, [] => .error "unexpected end of input"
  | fuel + 1, .arrNext, c :: cs =>
    if c = ']' then .ok (.vs [], cs)
    else if c = ',' then
      match parseStep fuel .val (skipWs cs) with
      | .ok (.v j, rem) =>
        (match parseStep fuel .arrNext (skipWs rem) with
         | .ok (.vs l, rem2) => .ok (.vs (j :: l), rem2)
         | .ok _ => .error "internal"
         | .error e => .error e)
      | .ok _ => .error "internal"
      | .error e => .error e
    else .error "expected comma or bracket"
  | _ + 1, .objFirst, [] => .error "unexpected end of input"
  | fuel + 1, .objFirst, c :: cs =>
    if c = '\x7d' then .ok (.kvs [], cs)
    else if c = '"' then
      match parseStringRest cs with
      | .ok (key, rem) =>
        (match skipWs rem with
         | ':' :: rem2 =>
           (match parseStep fuel .val (skipWs rem2) with
            | .ok (.v j, rem3) =>
              (match parseStep fuel .objNext (skipWs rem3) with
               | .ok (.kvs l, rem4) => .ok (.kvs ((String.mk key, j) :: l), rem4)
               | .ok _ => .error "internal"
               | .error e => .error e)
            | .ok _ => .error "internal"
            | .error e => .error e)
         | _ => .error "expected colon")
      | .error e => .error e
    else .error "expected object key"
  | _ + 1, .objNext, [] => .error "unexpected end of input"
  | fuel + 1, .objNext, c :: cs =>
    if c = '\x7d' then .ok (.kvs [], cs)
    else if c = ',' then
      match skipWs cs with
      | '"' :: rem =>
        (match parseStringRest rem with
         | .ok (key, rem1) =>
           (match skipWs rem1 with
            | ':' :: rem2 =>
              (match parseStep fuel .val (skipWs rem2) with
               | .ok (.v j, rem3) =>
                 (match parseStep fuel .objNext (skipWs rem3) with
                  | .ok (.kvs l, rem4) => .ok (.kvs ((String.mk key, j) :: l), rem4)
                  | .ok _ => .error "internal"
                  | .error e => .error e)
               | .ok _ => .error "internal"
               | .error e => .error e)
            | _ => .error "expected colon")
         | .error e => .error e)
      | _ => .error "expected object key"
    else .error "expected comma or brace"

/-- Model of `serde_json::from_str::<Value>`: parse a complete JSON document,
rejecting trailing non-whitespace. -/
def parse_json (s : String) : Except String Json :=
  match parseStep (2 * s.length + 16) .val (skipWs s.data) with
  | .ok (.v j, rest) =>
    if (skipWs rest).isEmpty then .ok j else .error "trailing characters"
  | .ok _ => .error "internal"
  | .error e => .error e

/-- Serde's derived deserialization of `struct JsonRpcRequest` from a JSON
value: `jsonrpc` and `method` are required strings, `id` and `params` are
optional (absent or `null` both deserialize to `None` for an
`Option<Value>` field), unknown fields are ignored. -/
def request_from_json (j : Json) : Except String JsonRpcRequest :=
  match j with
  | .obj _ =>
    match (j.get "jsonrpc").bind Json.asStr with
    | none => .error "missing or invalid field jsonrpc"
    | some ver =>
      match (j.get "method").bind Json.asStr with
      | none => .error "missing or invalid field method"
      | some m =>
        let id : Option Json :=
          match j.get "id" with
          | some Json.null => none
          | x => x
        let params : Option Json :=
          match j.get "params" with
          | some Json.null => none
          | x => x
        .ok { jsonrpc := ver, id := id, method := m, params := params }
  | _ => .error "invalid type: expected struct JsonRpcRequest"

/-- Model of `serde_json::from_str::<JsonRpcRequest>`. -/
def parse_request (s : String) : Except String JsonRpcRequest :=
  match parse_json s with
  | .ok j => request_from_json j
  | .error e => .error e

/-- Rust `str::trim`, over the whitespace classes relevant here. -/
def trimString (s : String) : String :=
  String.mk (((s.data.dropWhile Char.isWhitespace).reverse.dropWhile
    Char.isWhitespace).reverse)

/-- One iteration of `main`'s transport loop on one input line: the response
written for that line (`none` when nothing is written), and the backend
operations performed while handling it.  Mirrors the source order: the line
is trimmed, empty lines are skipped, a parse failure writes a synthetic
`id: null` / `-32700` error, and otherwise the request is fully handled
before the notification check suppresses the write. -/
def process_line (backend : Backend) (line : String) :
    Option JsonRpcResponse × List BackendOp :=
  let t := trimString line
  if t.isEmpty then (none, [])
  else
    match parse_request t with
    | .error e =>
      (some (JsonRpcResponse.err Json.null (-32700) ("Parse error: " ++ e)), [])
    | .ok req =>
      let r := handle_request backend req
      if req.id.isNone then (none, r.2) else (some r.1, r.2)

/-- The whole transport loop over a list of input lines: the stream of
responses written, in order. -/
def run_lines (backend : Backend) : List String → List JsonRpcResponse
  | [] => []
  | l :: rest => ((process_line backend l).1).toList ++ run_lines backend rest

/-- The seven tool names, in catalog order. -/
def toolNames : List String :=
  ["register_agent", "list_packages", "list_currencies", "create_order",
   "check_order_status", "topup_order", "rotate_proxy"]

/-- The required argument keys of each tool, in the order `execute_tool`
checks them (which is also the order of the catalog's `required` arrays). -/
def required_of : String → List String
  | "register_agent" => []
  | "list_packages" => ["api_key"]
  | "list_currencies" => ["api_key"]
  | "create_order" => ["api_key", "package_id"]
  | "check_order_status" => ["api_key", "order_id"]
  | "topup_order" => ["api_key", "order_id", "package_id"]
  | "rotate_proxy" => ["api_key", "order_id"]
  | _ => []

/-- Case-insensitive membership of a currency in a list, the relation claim
C1 asserts the validation to decide. -/
def case_insensitive_member (c : String) (l : List String) : Bool :=
  l.any (fun v => to_lowercase v == to_lowercase c)

/-- Under present string arguments, `execute_tool "create_order"` reduces to
the currency-validation cascade over the backend's currency-list answer. -/
theorem execute_create_order_cascade (backend : Backend) (args : Json)
    (api_key package_id currency : String)
    (hak : str_arg_view args "api_key" = some api_key)
    (hpk : str_arg_view args "package_id" = some package_id)
    (hc : str_arg_view args "pay_currency" = some currency) :
    execute_tool backend "create_order" args =
      match backend (.listCurrencies api_key) with
      | .error e => (.error e, [.listCurrencies api_key])
      | .ok currencies_val =>
        match (currencies_val.get "currencies").bind Json.asArray with
        | some currencies_arr =>
          let valid_currencies := currencies_arr.filterMap Json.asStr
          if valid_currencies.contains (to_lowercase currency) then
            (backend (.createOrder api_key package_id (some currency) (str_arg_view args "callback_url")),
             [.listCurrencies api_key,
              .createOrder api_key package_id (some currency) (str_arg_view args "callback_url")])
          else
            (.error ("Invalid pay_currency: '" ++ currency ++ "'. Supported currencies: "
                ++ String.intercalate ", " valid_currencies),
             [.listCurrencies api_key])
        | none =>
          (backend (.createOrder api_key package_id (some currency) (str_arg_view args "callback_url")),
           [.listCurrencies api_key,
            .createOrder api_key package_id (some currency) (str_arg_view args "callback_url")]) := by
  simp only [execute_tool, get_str_arg, hak, hpk, hc]

/-- Under present string arguments, `execute_tool "topup_order"` reduces to
the currency-validation cascade over the backend's currency-list answer. -/
theorem execute_topup_order_cascade (backend : Backend) (args : Json)
    (api_key order_id package_id currency : String)
    (hak : str_arg_view args "api_key" = some api_key)
    (hord : str_arg_view args "order_id" = some order_id)
    (hpk : str_arg_view args "package_id" = some package_id)
    (hc : str_arg_view args "pay_currency" = some currency) :
    execute_tool backend "topup_order" args =
      match backend (.listCurrencies api_key) with
      | .error e => (.error e, [.listCurrencies api_key])
      | .ok currencies_val =>
        match (currencies_val.get "currencies").bind Json.asArray with
        | some currencies_arr =>
          let valid_currencies := currencies_arr.filterMap Json.asStr
          if valid_currencies.contains (to_lowercase currency) then
            (backend (.topupOrder api_key order_id package_id (some currency)),
             [.listCurrencies api_key, .topupOrder api_key order_id package_id (some currency)])
          else
            (.error ("Invalid pay_currency: '" ++ currency ++ "'. Supported currencies: "
                ++ String.intercalate ", " valid_currencies),
             [.listCurrencies api_key])
        | none =>
          (backend (.topupOrder api_key order_id package_id (some currency)),
           [.listCurrencies api_key, .topupOrder api_key order_id package_id (some currency)]) := by
  simp only [execute_tool, get_str_arg, hak, hord, hpk, hc]

/-- Backend used by the C1 counterexample: the currency list is `["BTC"]`. -/
def c1Backend : Backend := fun op =>
  match op with
  | .listCurrencies _ => .ok (Json.obj [("currencies", Json.arr [Json.str "BTC"])])
  | _ => .ok Json.null

/-- Arguments used by the C1 counterexample. -/
def c1Args : Json :=
  Json.obj [("api_key", Json.str "pk_1"), ("package_id", Json.str "p1"),
            ("pay_currency", Json.str "BTC")]

/-- C1, counterexample: with backend currency list `["BTC"]` and supplied
currency `"BTC"` — a case-insensitive member of the list — `create_order` is
nevertheless rejected and no order request is sent, because the code
lowercases only the *supplied* currency and then tests exact membership.
Acceptance is therefore not equivalent to case-insensitive membership. -/
theorem C1_counterexample :
    case_insensitive_member "BTC" ["BTC"] = true ∧
    (execute_tool c1Backend "create_order" c1Args).1 =
      .error "Invalid pay_currency: 'BTC'. Supported currencies: BTC" ∧
    (execute_tool c1Backend "create_order" c1Args).2 = [.listCurrencies "pk_1"] :=
  ⟨rfl, rfl, rfl⟩

/-- C1, amended: for `create_order` and `topup_order` with a supplied
`pay_currency`, the executor first fetches the currency list; when the
response carries a `currencies` array, the supplied currency is accepted iff
its lowercase form is *exactly* a member of the array's string entries
(case-insensitive in effect only when the advertised list is lowercase); a
non-member fails with a message listing the valid set and the primary order
request is not sent (the trace holds only the currency fetch). -/
theorem C1_currency_validation (backend : Backend) (args : Json)
    (api_key package_id currency : String) (cv : Json) (arr : List Json)
    (hak : str_arg_view args "api_key" = some api_key)
    (hpk : str_arg_view args "package_id" = some package_id)
    (hc : str_arg_view args "pay_currency" = some currency)
    (hb : backend (.listCurrencies api_key) = .ok cv)
    (harr : (cv.get "currencies").bind Json.asArray = some arr) :
    ((arr.filterMap Json.asStr).contains (to_lowercase currency) = false →
       execute_tool backend "create_order" args =
         (.error ("Invalid pay_currency: '" ++ currency ++ "'. Supported currencies: "
             ++ String.intercalate ", " (arr.filterMap Json.asStr)),
          [.listCurrencies api_key])) ∧
    ((arr.filterMap Json.asStr).contains (to_lowercase currency) = true →
       execute_tool backend "create_order" args =
         (backend (.createOrder api_key package_id (some currency) (str_arg_view args "callback_url")),
          [.listCurrencies api_key,
           .createOrder api_key package_id (some currency) (str_arg_view args "callback_url")])) ∧
    (∀ order_id, str_arg_view args "order_id" = some order_id →
       ((arr.filterMap Json.asStr).contains (to_lowercase currency) = false →
          execute_tool backend "topup_order" args =
            (.error ("Invalid pay_currency: '" ++ currency ++ "'. Supported currencies: "
                ++ String.intercalate ", " (arr.filterMap Json.asStr)),
             [.listCurrencies api_key])) ∧
       ((arr.filterMap Json.asStr).contains (to_lowercase currency) = true →
          execute_tool backend "topup_order" args =
            (backend (.topupOrder api_key order_id package_id (some currency)),
             [.listCurrencies api_key,
              .topupOrder api_key order_id package_id (some currency)]))) := by
  have hcas := execute_create_order_cascade backend args api_key package_id currency hak hpk hc
  rw [hb] at hcas
  simp only [harr] at hcas
  refine ⟨fun hmem => ?_, fun hmem => ?_, fun order_id hord => ?_⟩
  · rw [hcas, hmem]; simp
  · rw [hcas, hmem]; simp
  · have hcas2 := execute_topup_order_cascade backend args api_key order_id package_id currency
      hak hord hpk hc
    rw [hb] at hcas2
    simp only [harr] at hcas2
    exact ⟨fun hmem => by rw [hcas2, hmem]; simp, fun hmem => by rw [hcas2, hmem]; simp⟩

/-- Backend used by the C1 witness: the currency list is `["btc"]`. -/
def c1wBackend : Backend := fun op =>
  match op with
  | .listCurrencies _ => .ok (Json.obj [("currencies", Json.arr [Json.str "btc"])])
  | _ => .ok Json.null

/-- Arguments used by the C1 witness. -/
def c1wArgs : Json :=
  Json.obj [("api_key", Json.str "pk_1"), ("package_id", Json.str "p1"),
            ("pay_currency", Json.str "BTC"), ("order_id", Json.str "o1")]

/-- Witness for C1: a concrete accepting run of `create_order` (advertised
list `["btc"]`, supplied `"BTC"`, lowercased and accepted). -/
theorem C1_currency_validation_witness :
    execute_tool c1wBackend "create_order" c1wArgs =
      (c1wBackend (.createOrder "pk_1" "p1" (some "BTC") (str_arg_view c1wArgs "callback_url")),
       [.listCurrencies "pk_1",
        .createOrder "pk_1" "p1" (some "BTC") (str_arg_view c1wArgs "callback_url")]) :=
  (C1_currency_validation c1wBackend c1wArgs "pk_1" "p1" "BTC"
    (Json.obj [("currencies", Json.arr [Json.str "btc"])]) [Json.str "btc"]
    rfl rfl rfl rfl rfl).2.1 rfl

/-- C10: for `create_order` and `topup_order` with a supplied `pay_currency`,
(a) when the backend's currency-list response parses but carries no
`currencies` key or a non-array `currencies` member, the membership check is
silently skipped and the primary order request is sent with the unvalidated
currency; and (b) non-string entries of the `currencies` array are ignored
by the membership test: two backends whose advertised arrays have the same
string entries (and that agree on the order operation) make `create_order`
behave identically. -/
theorem C10_malformed_currency_list :
    (∀ (backend : Backend) (args : Json) (api_key package_id currency : String) (cv : Json),
       str_arg_view args "api_key" = some api_key →
       str_arg_view args "package_id" = some package_id →
       str_arg_view args "pay_currency" = some currency →
       backend (.listCurrencies api_key) = .ok cv →
       (cv.get "currencies").bind Json.asArray = none →
       (execute_tool backend "create_order" args =
          (backend (.createOrder api_key package_id (some currency) (str_arg_view args "callback_url")),
           [.listCurrencies api_key,
            .createOrder api_key package_id (some currency) (str_arg_view args "callback_url")]) ∧
        ∀ order_id, str_arg_view args "order_id" = some order_id →
          execute_tool backend "topup_order" args =
            (backend (.topupOrder api_key order_id package_id (some currency)),
             [.listCurrencies api_key,
              .topupOrder api_key order_id package_id (some currency)]))) ∧
    (∀ (b1 b2 : Backend) (args : Json) (api_key package_id currency : String)
       (arr1 arr2 : List Json),
       str_arg_view args "api_key" = some api_key →
       str_arg_view args "package_id" = some package_id →
       str_arg_view args "pay_currency" = some currency →
       b1 (.listCurrencies api_key) = .ok (Json.obj [("currencies", Json.arr arr1)]) →
       b2 (.listCurrencies api_key) = .ok (Json.obj [("currencies", Json.arr arr2)]) →
       arr1.filterMap Json.asStr = arr2.filterMap Json.asStr →
       (∀ cb, b1 (.createOrder api_key package_id (some currency) cb) =
              b2 (.createOrder api_key package_id (some currency) cb)) →
       execute_tool b1 "create_order" args = execute_tool b2 "create_order" args) := by
  constructor
  · intro backend args api_key package_id currency cv hak hpk hc hb hmal
    have hcas := execute_create_order_cascade backend args api_key package_id currency hak hpk hc
    rw [hb] at hcas
    simp only [hmal] at hcas
    refine ⟨hcas, fun order_id hord => ?_⟩
    have hcas2 := execute_topup_order_cascade backend args api_key order_id package_id currency
      hak hord hpk hc
    rw [hb] at hcas2
    simp only [hmal] at hcas2
    exact hcas2
  · intro b1 b2 args api_key package_id currency arr1 arr2 hak hpk hc hb1 hb2 hstr hagree
    have hcas1 := execute_create_order_cascade b1 args api_key package_id currency hak hpk hc
    have hcas2 := execute_create_order_cascade b2 args api_key package_id currency hak hpk hc
    rw [hb1] at hcas1
    rw [hb2] at hcas2
    have h1 : ((Json.obj [("currencies", Json.arr arr1)]).get "currencies").bind Json.asArray
        = some arr1 := rfl
    have h2 : ((Json.obj [("currencies", Json.arr arr2)]).get "currencies").bind Json.asArray
        = some arr2 := rfl
    simp only [h1] at hcas1
    simp only [h2] at hcas2
    rw [hcas1, hcas2, hstr, hagree]

/-- Witness for C10: a concrete run in which the currency-list response is
`{"ok": true}` (no `currencies` key), so the check is skipped and the order
request is sent with the unvalidated currency `"doge"`. -/
theorem C10_malformed_currency_list_witness :
    execute_tool (fun op => match op with
        | .listCurrencies _ => .ok (Json.obj [("ok", Json.bool true)])
        | _ => .ok Json.null) "create_order"
      (Json.obj [("api_key", Json.str "pk_1"), ("package_id", Json.str "p1"),
                 ("pay_currency", Json.str "doge")]) =
      ((fun (op : BackendOp) => match op with
        | .listCurrencies _ => .ok (Json.obj [("ok", Json.bool true)])
        | _ => .ok Json.null)
        (.createOrder "pk_1" "p1" (some "doge")
          (str_arg_view (Json.obj [("api_key", Json.str "pk_1"), ("package_id", Json.str "p1"),
                 ("pay_currency", Json.str "doge")]) "callback_url")),
       [.listCurrencies "pk_1",
        .createOrder "pk_1" "p1" (some "doge")
          (str_arg_view (Json.obj [("api_key", Json.str "pk_1"), ("package_id", Json.str "p1"),
                 ("pay_currency", Json.str "doge")]) "callback_url")]) :=
  (C10_malformed_currency_list.1 (fun op => match op with
        | .listCurrencies _ => .ok (Json.obj [("ok", Json.bool true)])
        | _ => .ok Json.null)
    (Json.obj [("api_key", Json.str "pk_1"), ("package_id", Json.str "p1"),
               ("pay_currency", Json.str "doge")])
    "pk_1" "p1" "doge" (Json.obj [("ok", Json.bool true)]) rfl rfl rfl rfl rfl).1

/-- C2: every `tools/call` request carrying an identifier is answered with a
JSON-RPC success envelope (result present, error absent, id echoed); a
failing tool execution yields a text content block with `isError: true`, a
successful one the pretty-printed backend JSON in a text content block with
no error flag. -/
theorem C2_tools_call_success_envelope (backend : Backend) (req : JsonRpcRequest) (i : Json)
    (hm : req.method = "tools/call") (hid : req.id = some i) :
    (handle_request backend req).1.error = none ∧
    (handle_request backend req).1.id = i ∧
    ((∃ content,
        (execute_tool backend (extract_name req.params) (extract_args req.params)).1 =
          .ok content ∧
        (handle_request backend req).1.result =
          some (Json.obj [("content", Json.arr [text_block (to_string_pretty content)])])) ∨
     (∃ msg,
        (execute_tool backend (extract_name req.params) (extract_args req.params)).1 =
          .error msg ∧
        (handle_request backend req).1.result =
          some (Json.obj [("content", Json.arr [text_block msg]),
                          ("isError", Json.bool true)]))) := by
  rcases hres : execute_tool backend (extract_name req.params) (extract_args req.params)
    with ⟨res, ops⟩
  cases res with
  | ok content =>
    refine ⟨?_, ?_, .inl ⟨content, rfl, ?_⟩⟩ <;>
      simp [handle_request, hm, hid, hres, JsonRpcResponse.success]
  | error msg =>
    refine ⟨?_, ?_, .inr ⟨msg, rfl, ?_⟩⟩ <;>
      simp [handle_request, hm, hid, hres, JsonRpcResponse.success]

/-- Witness for C2: a concrete `tools/call` of `register_agent` against a
backend that fails, showing the flagged-error success envelope. -/
theorem C2_tools_call_success_envelope_witness :
    (handle_request (fun _ => .error "HTTP error: connection refused")
      { jsonrpc := "2.0", id := some (Json.num 1), method := "tools/call",
        params := some (Json.obj [("name", Json.str "register_agent")]) }).1.error = none :=
  (C2_tools_call_success_envelope (fun _ => .error "HTTP error: connection refused")
    { jsonrpc := "2.0", id := some (Json.num 1), method := "tools/call",
      params := some (Json.obj [("name", Json.str "register_agent")]) }
    (Json.num 1) rfl rfl).1

/-- C4: a request whose method is none of the five recognized ones is
answered with a JSON-RPC error envelope: no result, code `-32601`, message
naming the method, and no backend operation is performed. -/
theorem C4_unknown_method (backend : Backend) (req : JsonRpcRequest)
    (h : req.method ∉ (["initialize", "tools/list", "tools/call",
        "notifications/initialized", "notifications/cancelled"] : List String)) :
    (handle_request backend req).1.result = none ∧
    (handle_request backend req).1.error =
      some { code := -32601, message := "Method not found: " ++ req.method, data := none } ∧
    (handle_request backend req).2 = [] := by
  simp only [List.mem_cons, List.not_mem_nil, or_false, not_or] at h
  obtain ⟨h1, h2, h3, h4, h5⟩ := h
  unfold handle_request
  split
  · exact absurd (by assumption) h1
  · exact absurd (by assumption) h2
  · exact absurd (by assumption) h3
  · exact absurd (by assumption) h4
  · exact absurd (by assumption) h5
  · simp [JsonRpcResponse.err]

/-- Witness for C4: concrete unknown method `"frobnicate"`. -/
theorem C4_unknown_method_witness :
    (handle_request (fun _ => .ok Json.null)
      { jsonrpc := "2.0", id := some (Json.num 3), method := "frobnicate",
        params := none }).1.error =
      some { code := -32601, message := "Method not found: " ++ "frobnicate", data := none } :=
  (C4_unknown_method (fun _ => .ok Json.null)
    { jsonrpc := "2.0", id := some (Json.num 3), method := "frobnicate", params := none }
    (by decide)).2.1

/-- C7: serializing a success envelope built from any JSON value `v` (and any
id) produces exactly the three-field object with no `error` member; reading
the serialization back field-wise recovers `v` exactly and the id it was
built with. -/
theorem C7_success_roundtrip (v id : Json) :
    response_to_json (JsonRpcResponse.success id v) =
      Json.obj [("jsonrpc", Json.str "2.0"), ("id", id), ("result", v)] ∧
    (response_to_json (JsonRpcResponse.success id v)).get "result" = some v ∧
    (response_to_json (JsonRpcResponse.success id v)).get "error" = none ∧
    (response_to_json (JsonRpcResponse.success id v)).get "id" = some id :=
  ⟨rfl, rfl, rfl, rfl⟩

/-- C8: the static catalog holds exactly seven tools with the expected names,
each with a non-empty string description and an object-valued `inputSchema`;
and every `tools/list` request is answered with exactly this catalog,
whatever its parameters. -/
theorem C8_tool_catalog :
    (∃ tools, get_tools = Json.arr tools ∧ tools.length = 7 ∧
      tools.filterMap (fun t => (t.get "name").bind Json.asStr) =
        ["register_agent", "list_packages", "list_currencies", "create_order",
         "check_order_status", "topup_order", "rotate_proxy"] ∧
      ∀ t ∈ tools,
        ((t.get "description").bind Json.asStr).isSome ∧
        (t.get "description").bind Json.asStr ≠ some "" ∧
        (t.get "inputSchema").map Json.isObj = some true) ∧
    (∀ (backend : Backend) (req : JsonRpcRequest), req.method = "tools/list" →
      handle_request backend req =
        (JsonRpcResponse.success (req.id.getD Json.null)
          (Json.obj [("tools", get_tools)]), [])) := by
  constructor
  · refine ⟨_, rfl, rfl, rfl, ?_⟩
    decide
  · intro backend req hm
    simp [handle_request, hm]

/-- Witness for C8: the `tools/list` answer for a concrete request with
parameters present (and ignored). -/
theorem C8_tool_catalog_witness :
    handle_request (fun _ => .ok Json.null)
      { jsonrpc := "2.0", id := some (Json.num 2), method := "tools/list",
        params := some (Json.str "ignored") } =
      (JsonRpcResponse.success (Json.num 2) (Json.obj [("tools", get_tools)]), []) :=
  C8_tool_catalog.2 (fun _ => .ok Json.null)
    { jsonrpc := "2.0", id := some (Json.num 2), method := "tools/list",
      params := some (Json.str "ignored") } rfl

/-- C9, counterexample: a `tools/call` whose `params.arguments` member is
present but *not* an object (here the string `"oops"`) is handed through
unchanged to the executor — it is not defaulted to the empty object, contrary
to the claim. -/
theorem C9_counterexample :
    extract_args (some (Json.obj [("name", Json.str "list_packages"),
        ("arguments", Json.str "oops")])) = Json.str "oops" ∧
    Json.isObj (Json.str "oops") = false ∧
    Json.str "oops" ≠ Json.obj [] :=
  ⟨rfl, rfl, by simp⟩

/-- C9, amended: the arguments value handed to the tool executor is the
`arguments` member of `params` whenever `params` is an object containing
that member — whatever its JSON type — and the empty object exactly when
`params` is absent, not an object, or lacks the member. -/
theorem C9_arguments_default (params : Option Json) :
    (∀ fields v, params = some (Json.obj fields) → lookupField fields "arguments" = some v →
        extract_args params = v) ∧
    ((params = none ∨ ∃ p, params = some p ∧ p.get "arguments" = none) →
        extract_args params = Json.obj []) ∧
    (∀ (backend : Backend) (req : JsonRpcRequest), req.method = "tools/call" →
        (handle_request backend req).2 =
          (execute_tool backend (extract_name req.params) (extract_args req.params)).2) := by
  refine ⟨?_, ?_, ?_⟩
  · rintro fields v rfl hv
    simp [extract_args, Json.get, hv]
  · rintro (rfl | ⟨p, rfl, hp⟩)
    · rfl
    · simp [extract_args, hp]
  · intro backend req hm
    rcases hres : execute_tool backend (extract_name req.params) (extract_args req.params)
      with ⟨res, ops⟩
    cases res <;> simp [handle_request, hm, hres]

/-- Witness for C9: the amended rule at the counterexample's input — the
non-object member is passed through. -/
theorem C9_arguments_default_witness :
    extract_args (some (Json.obj [("arguments", Json.str "oops")])) = Json.str "oops" :=
  (C9_arguments_default (some (Json.obj [("arguments", Json.str "oops")]))).1
    [("arguments", Json.str "oops")] (Json.str "oops") rfl rfl

/-- C5: a non-empty (after trimming, as §4.1 frames the loop) input line that
fails to parse is answered immediately with a synthetic `id: null` /
`-32700` response and the loop continues with the remaining lines; and this
is the only case in which a response is written without an extracted request
identifier — any other written response comes from a successfully parsed
request whose `id` was present. -/
theorem C5_parse_error_transport :
    (∀ (backend : Backend) (line : String) (rest : List String) (e : String),
       trimString line ≠ "" →
       parse_request (trimString line) = .error e →
       process_line backend line =
         (some (JsonRpcResponse.err Json.null (-32700) ("Parse error: " ++ e)), []) ∧
       run_lines backend (line :: rest) =
         JsonRpcResponse.err Json.null (-32700) ("Parse error: " ++ e) ::
           run_lines backend rest) ∧
    (∀ (backend : Backend) (l : String) (r : JsonRpcResponse),
       (process_line backend l).1 = some r →
       (∃ req, parse_request (trimString l) = .ok req ∧ req.id.isSome) ∨
       (r.id = Json.null ∧ r.result = none ∧
        ∃ msg, r.error = some { code := -32700, message := msg, data := none })) := by
  constructor
  · intro backend line rest e hne hp
    have hne' : (trimString line).isEmpty = false := by
      rcases h : (trimString line).isEmpty with _ | _
      · rfl
      · exact absurd ((String.isEmpty_iff _).mp h) hne
    have h1 : process_line backend line =
        (some (JsonRpcResponse.err Json.null (-32700) ("Parse error: " ++ e)), []) := by
      simp [process_line, hne', hp]
    exact ⟨h1, by simp [run_lines, h1]⟩
  · intro backend l r hsome
    by_cases hemp : (trimString l).isEmpty
    · simp [process_line, hemp] at hsome
    · rcases hp : parse_request (trimString l) with e | req
      · right
        simp [process_line, hemp, hp] at hsome
        subst hsome
        exact ⟨rfl, rfl, "Parse error: " ++ e, rfl⟩
      · left
        rcases hid : req.id with _ | v
        · simp [process_line, hemp, hp, hid] at hsome
        · exact ⟨req, rfl, by rw [hid]; rfl⟩

/-- Witness for C5: the malformed line `"notjson"` produces the `-32700`
response and the loop goes on. -/
theorem C5_parse_error_transport_witness :
    process_line (fun _ => .ok Json.null) "notjson" =
      (some (JsonRpcResponse.err Json.null (-32700)
        ("Parse error: " ++ "expected value")), []) ∧
    run_lines (fun _ => .ok Json.null) ["notjson"] =
      JsonRpcResponse.err Json.null (-32700) ("Parse error: " ++ "expected value") ::
        run_lines (fun _ => .ok Json.null) [] :=
  C5_parse_error_transport.1 (fun _ => .ok Json.null) "notjson" [] "expected value"
    (by decide) rfl

/-- C6: a successfully parsed request with no `id` is a notification: the
transport writes nothing for it, for any method, although the request is
fully dispatched — the backend operations of `handle_request` are still
performed. -/
theorem C6_notifications_never_answered (backend : Backend) (line : String)
    (req : JsonRpcRequest)
    (hp : parse_request (trimString line) = .ok req) (hid : req.id = none) :
    (process_line backend line).1 = none ∧
    (process_line backend line).2 = (handle_request backend req).2 := by
  have hne : (trimString line).isEmpty = false := by
    rcases h : (trimString line).isEmpty with _ | _
    · rfl
    · exfalso
      have heq : trimString line = "" := (String.isEmpty_iff _).mp h
      rw [heq] at hp
      exact Except.noConfusion hp
  constructor <;> simp [process_line, hne, hp, hid]

/-- Witness for C6: a concrete `notifications/initialized` line with no id is
dispatched but unanswered. -/
theorem C6_notifications_never_answered_witness :
    (process_line (fun _ => .ok Json.null)
      "\x7b\"jsonrpc\":\"2.0\",\"method\":\"notifications/initialized\"\x7d").1 = none :=
  (C6_notifications_never_answered (fun _ => .ok Json.null)
    "\x7b\"jsonrpc\":\"2.0\",\"method\":\"notifications/initialized\"\x7d"
    { jsonrpc := "2.0", id := none, method := "notifications/initialized", params := none }
    rfl rfl).1

/-- Wrapping a failing tool execution: the `tools/call` branch turns an
executor error into a flagged-error content block inside a *success*
envelope. -/
theorem handle_tools_call_error (backend : Backend) (tool : String) (args : Json)
    (msg : String) (i : Json)
    (hexec : execute_tool backend tool args = (.error msg, [])) :
    handle_request backend
      { jsonrpc := "2.0", id := some i, method := "tools/call",
        params := some (Json.obj [("name", Json.str tool), ("arguments", args)]) } =
      (JsonRpcResponse.success i
        (Json.obj [("content", Json.arr [text_block msg]),
                   ("isError", Json.bool true)]), []) := by
  have hname : extract_name (some (Json.obj [("name", Json.str tool), ("arguments", args)]))
      = tool := rfl
  have hargs : extract_args (some (Json.obj [("name", Json.str tool), ("arguments", args)]))
      = args := rfl
  simp [handle_request, hname, hargs, hexec]

/-- C3: (a) the catalog's `required` arrays are exactly `required_of`;
(b) for every tool and required key, if the arguments object lacks the key or
maps it to a non-string value — and the keys checked before it are present as
strings, which pins down the single message the code can emit — execution
fails with `Missing required argument: <key>`, no backend operation runs,
and the outer envelope is still a success carrying a flagged-error block;
(c) execution depends on the arguments object only through its string-typed
views, so a key mapped to a non-string behaves identically to an absent
key. -/
theorem C3_missing_required_argument :
    (∀ t ∈ (get_tools.asArray.getD []),
       (t.get "inputSchema").bind (fun s => s.get "required") =
         some (Json.arr ((required_of (((t.get "name").bind Json.asStr).getD "")).map
           Json.str))) ∧
    (∀ (backend : Backend) (tool : String) (args : Json) (key : String),
       tool ∈ toolNames → key ∈ required_of tool →
       str_arg_view args key = none →
       (∀ k ∈ (required_of tool).takeWhile (fun k0 => k0 != key),
          str_arg_view args k ≠ none) →
       execute_tool backend tool args =
         (.error ("Missing required argument: " ++ key), []) ∧
       ∀ i, handle_request backend
           { jsonrpc := "2.0", id := some i, method := "tools/call",
             params := some (Json.obj [("name", Json.str tool), ("arguments", args)]) } =
         (JsonRpcResponse.success i
           (Json.obj [("content", Json.arr [text_block ("Missing required argument: " ++ key)]),
                      ("isError", Json.bool true)]), [])) ∧
    (∀ (backend : Backend) (tool : String) (args1 args2 : Json),
       (∀ k, str_arg_view args1 k = str_arg_view args2 k) →
       execute_tool backend tool args1 = execute_tool backend tool args2) := by
  refine ⟨?_, ?_, ?_⟩
  · intro t ht
    simp only [get_tools, inputSchemaOf, strProp, Json.asArray, Option.getD,
      List.mem_cons, List.not_mem_nil, or_false] at ht
    rcases ht with rfl | rfl | rfl | rfl | rfl | rfl | rfl <;> rfl
  · intro backend tool args key htool hkey hbad hbefore
    simp only [toolNames, List.mem_cons, List.not_mem_nil, or_false] at htool
    rcases htool with rfl | rfl | rfl | rfl | rfl | rfl | rfl
    · simp [required_of] at hkey
    · simp only [required_of, List.mem_cons, List.not_mem_nil, or_false] at hkey
      subst hkey
      have hexec : execute_tool backend "list_packages" args =
          (.error ("Missing required argument: " ++ "api_key"), []) := by
        simp [execute_tool, get_str_arg, hbad]
      exact ⟨hexec, fun i => handle_tools_call_error backend _ args _ i hexec⟩
    · simp only [required_of, List.mem_cons, List.not_mem_nil, or_false] at hkey
      subst hkey
      have hexec : execute_tool backend "list_currencies" args =
          (.error ("Missing required argument: " ++ "api_key"), []) := by
        simp [execute_tool, get_str_arg, hbad]
      exact ⟨hexec, fun i => handle_tools_call_error backend _ args _ i hexec⟩
    · simp only [required_of, List.mem_cons, List.not_mem_nil, or_false] at hkey
      rcases hkey with rfl | rfl
      · have hexec : execute_tool backend "create_order" args =
            (.error ("Missing required argument: " ++ "api_key"), []) := by
          simp [execute_tool, get_str_arg, hbad]
        exact ⟨hexec, fun i => handle_tools_call_error backend _ args _ i hexec⟩
      · have htw : (required_of "create_order").takeWhile (fun k0 => k0 != "package_id")
            = ["api_key"] := rfl
        simp only [htw, List.mem_cons, List.not_mem_nil, or_false] at hbefore
        obtain ⟨ak, hak⟩ := Option.ne_none_iff_exists'.mp (hbefore "api_key" rfl)
        have hexec : execute_tool backend "create_order" args =
            (.error ("Missing required argument: " ++ "package_id"), []) := by
          simp [execute_tool, get_str_arg, hak, hbad]
        exact ⟨hexec, fun i => handle_tools_call_error backend _ args _ i hexec⟩
    · simp only [required_of, List.mem_cons, List.not_mem_nil, or_false] at hkey
      rcases hkey with rfl | rfl
      · have hexec : execute_tool backend "check_order_status" args =
            (.error ("Missing required argument: " ++ "api_key"), []) := by
          simp [execute_tool, get_str_arg, hbad]
        exact ⟨hexec, fun i => handle_tools_call_error backend _ args _ i hexec⟩
      · have htw : (required_of "check_order_status").takeWhile (fun k0 => k0 != "order_id")
            = ["api_key"] := rfl
        simp only [htw, List.mem_cons, List.not_mem_nil, or_false] at hbefore
        obtain ⟨ak, hak⟩ := Option.ne_none_iff_exists'.mp (hbefore "api_key" rfl)
        have hexec : execute_tool backend "check_order_status" args =
            (.error ("Missing required argument: " ++ "order_id"), []) := by
          simp [execute_tool, get_str_arg, hak, hbad]
        exact ⟨hexec, fun i => handle_tools_call_error backend _ args _ i hexec⟩
    · simp only [required_of, List.mem_cons, List.not_mem_nil, or_false] at hkey
      rcases hkey with rfl | rfl | rfl
      · have hexec : execute_tool backend "topup_order" args =
            (.error ("Missing required argument: " ++ "api_key"), []) := by
          simp [execute_tool, get_str_arg, hbad]
        exact ⟨hexec, fun i => handle_tools_call_error backend _ args _ i hexec⟩
      · have htw : (required_of "topup_order").takeWhile (fun k0 => k0 != "order_id")
            = ["api_key"] := rfl
        simp only [htw, List.mem_cons, List.not_mem_nil, or_false] at hbefore
        obtain ⟨ak, hak⟩ := Option.ne_none_iff_exists'.mp (hbefore "api_key" rfl)
        have hexec : execute_tool backend "topup_order" args =
            (.error ("Missing required argument: " ++ "order_id"), []) := by
          simp [execute_tool, get_str_arg, hak, hbad]
        exact ⟨hexec, fun i => handle_tools_call_error backend _ args _ i hexec⟩
      · have htw : (required_of "topup_order").takeWhile (fun k0 => k0 != "package_id")
            = ["api_key", "order_id"] := rfl
        simp only [htw, List.mem_cons, List.not_mem_nil, or_false] at hbefore
        obtain ⟨ak, hak⟩ := Option.ne_none_iff_exists'.mp (hbefore "api_key" (.inl rfl))
        obtain ⟨od, hod⟩ := Option.ne_none_iff_exists'.mp (hbefore "order_id" (.inr rfl))
        have hexec : execute_tool backend "topup_order" args =
            (.error ("Missing required argument: " ++ "package_id"), []) := by
          simp [execute_tool, get_str_arg, hak, hod, hbad]
        exact ⟨hexec, fun i => handle_tools_call_error backend _ args _ i hexec⟩
    · simp only [required_of, List.mem_cons, List.not_mem_nil, or_false] at hkey
      rcases hkey with rfl | rfl
      · have hexec : execute_tool backend "rotate_proxy" args =
            (.error ("Missing required argument: " ++ "api_key"), []) := by
          simp [execute_tool, get_str_arg, hbad]
        exact ⟨hexec, fun i => handle_tools_call_error backend _ args _ i hexec⟩
      · have htw : (required_of "rotate_proxy").takeWhile (fun k0 => k0 != "order_id")
            = ["api_key"] := rfl
        simp only [htw, List.mem_cons, List.not_mem_nil, or_false] at hbefore
        obtain ⟨ak, hak⟩ := Option.ne_none_iff_exists'.mp (hbefore "api_key" rfl)
        have hexec : execute_tool backend "rotate_proxy" args =
            (.error ("Missing required argument: " ++ "order_id"), []) := by
          simp [execute_tool, get_str_arg, hak, hbad]
        exact ⟨hexec, fun i => handle_tools_call_error backend _ args _ i hexec⟩
  · intro backend tool args1 args2 hext
    simp only [execute_tool.eq_def, get_str_arg, hext]

/-- Witness for C3: calling `topup_order` with only `api_key` and `order_id`
present (and `package_id` mapped to a number, i.e. a type mismatch) fails
naming `package_id`, with no backend operation. -/
theorem C3_missing_required_argument_witness :
    execute_tool (fun _ => .ok Json.null) "topup_order"
      (Json.obj [("api_key", Json.str "pk_1"), ("order_id", Json.str "o1"),
                 ("package_id", Json.num 5)]) =
      (.error ("Missing required argument: " ++ "package_id"), []) :=
  (C3_missing_required_argument.2.1 (fun _ => .ok Json.null) "topup_order"
    (Json.obj [("api_key", Json.str "pk_1"), ("order_id", Json.str "o1"),
               ("package_id", Json.num 5)])
    "package_id" (by decide) (by decide) rfl
    (by intro k hk; fin_cases hk <;> simp [str_arg_view, Json.get, lookupField, Json.asStr])).1

/-- C3, counterexample: with an empty arguments object, `topup_order` lacks
the required key `package_id`, yet the failure message names `api_key` (the
first key checked), not `package_id` — so "fails with a message naming that
key" does not hold per missing key when several are missing at once. -/
theorem C3_counterexample :
    "package_id" ∈ required_of "topup_order" ∧
    str_arg_view (Json.obj []) "package_id" = none ∧
    execute_tool (fun _ => .ok Json.null) "topup_order" (Json.obj []) =
      (.error ("Missing required argument: " ++ "api_key"), []) ∧
    ("Missing required argument: " ++ "api_key") ≠
      ("Missing required argument: " ++ "package_id") :=
  ⟨by decide, rfl, rfl, by decide⟩
